import Mathlib

/-!
# Shallow embedding of the kodi_jsonrpc client (src/kodi_jsonrpc.go)

This file embeds, in Lean, the data model and the operations of the Go
package `kodi_jsonrpc`: the `Connection` facade (`Send`, `Close`, `init`'s
version handshake), the `Response` handle (`Read`, `unpack`), the reader
loop's message classification and error handling, the writer loop's
encode/retry step, and the `connect` dial loop.

Modelling conventions:
* JSON dynamic values are a tagged sum `JVal`; decoded Go
  `map[string]interface{}` values are association lists `List (String × JVal)`;
  JSON numbers (Go `float64`) are rationals.
* Go channels are made explicit: each response channel is an index into a
  list of `Bool` closed-flags; the buffered `write` and `Notifications`
  channels are queues (`List`) plus a closed flag.  A receive on a closed
  channel of pointers yields `nil` immediately; a send on a closed channel
  panics — both are modelled explicitly.
* Concurrency is resolved by an explicit oracle (`Arrival` for what reaches
  a response channel during `Read`, `DecodeResult`/`EncodeResult` for what
  the codec does in the reader/writer loops, a `dial` function for `net.Dial`
  outcomes in `connect`).
* Go panics (nil-pointer dereference, send on closed channel, failed type
  assertion, close of closed channel) appear as explicit `crash`/panic
  outcomes, since they terminate the process.
-/

/-- Dynamic JSON value, as produced by Go's `encoding/json` into
`interface{}`: null, bool, number (`float64`, modelled as `ℚ`), string,
array, object (`map[string]interface{}`, modelled as an association list). -/
inductive JVal where
  | null : JVal
  | bool (b : Bool) : JVal
  | num (q : ℚ) : JVal
  | str (s : String) : JVal
  | arr (xs : List JVal) : JVal
  | obj (fields : List (String × JVal)) : JVal

/-- A decoded Go `map[string]interface{}`; `none` is Go's nil map. -/
abbrev JObj := List (String × JVal)

/-- Indexing a possibly-nil Go map: a nil map or a missing key yields the
nil interface value (`none`). -/
def jlookup (m : Option JObj) (key : String) : Option JVal :=
  match m with
  | none => none
  | some fields => fields.lookup key

/-- RPC response error type (`rpcError`): `Code float64`, `Message string`,
optional `Data` map. -/
structure rpcError where
  Code : ℚ
  Message : String
  Data : Option JObj

/-- RPC Request type (`Request`): optional `Id *uint32`, `Method`,
optional `Params`, `JsonRPC` tag. -/
structure Request where
  Id : Option Nat
  Method : String
  Params : Option JObj
  JsonRPC : String

/-- RPC response type (`rpcResponse`): `Id *float64`, `JsonRPC`,
`Method *string`, `Params`, `Result`, `Error`. -/
structure rpcResponse where
  Id : Option ℚ
  JsonRPC : String
  Method : Option String
  Params : Option JObj
  Result : Option JObj
  Error : Option rpcError

/-- The Go conversion `uint32(f)` applied to a decoded JSON number
(`float64`): truncate toward zero, reduce modulo `2^32`. -/
def uint32OfRat (q : ℚ) : Nat :=
  ((q.num).tdiv (q.den : Int)).toNat % 2 ^ 32

/-- Item part of a Kodi notification (`params.data.item`, optional). -/
structure NotificationItem where
  type : String
deriving DecidableEq

/-- Data part of a Kodi notification (`params.data`). -/
structure NotificationDataPart where
  item : Option NotificationItem
deriving DecidableEq

/-- Params part of a Kodi notification (`params`). -/
structure NotificationParams where
  data : NotificationDataPart
deriving DecidableEq

/-- `Notification` stores Kodi server→client notifications: a `Method` and
the structured `Params` shape recognized by the struct tags. -/
structure Notification where
  Method : String
  Params : NotificationParams
deriving DecidableEq

/-- `mapstructure.Decode(res.Params, &n.Params)`: pull
`params.data.item.type` out of the dynamic map; fields that are missing or
of the wrong shape are left at their zero values (the decode error is
discarded by the source). -/
def decodeNotificationParams (p : Option JObj) : NotificationParams :=
  match jlookup p "data" with
  | some (JVal.obj d) =>
      match d.lookup "item" with
      | some (JVal.obj i) =>
          match i.lookup "type" with
          | some (JVal.str s) => ⟨⟨some ⟨s⟩⟩⟩
          | _ => ⟨⟨some ⟨""⟩⟩⟩
      | _ => ⟨⟨none⟩⟩
  | _ => ⟨⟨none⟩⟩

/-- Connection state, the modelled portion of the Go `Connection` struct.
Channels are made explicit: `chans` lists the closed-flag of each response
channel ever created (a `Response`/pending-table entry holds an index into
it); `write` and `Notifications` hold the queued contents of the two
buffered channels, with their closed flags alongside. -/
structure Connection where
  Closed : Bool
  requestId : Nat
  /-- `responses map[uint32]*chan *rpcResponse`: request id ↦ channel index. -/
  responses : List (Nat × Nat)
  /-- closed-flag of each allocated response channel. -/
  chans : List Bool
  /-- queued contents of the buffered `write` channel. -/
  write : List Request
  writeChanClosed : Bool
  /-- queued contents of the buffered `Notifications` channel. -/
  Notifications : List Notification
  notifChanClosed : Bool

/-- A fresh connection right after `init` has set up its channels and maps
(before the version handshake is sent). -/
def freshConnection : Connection :=
  { Closed := false, requestId := 0, responses := [], chans := []
    write := [], writeChanClosed := false
    Notifications := [], notifChanClosed := false }

/-- `Response` provides a reader for returning responses: a pointer to the
response channel (an index into `Connection.chans`), and the `Pending` flag
(false when the response is unwanted, or has been consumed). -/
structure Response where
  channel : Option Nat
  Pending : Bool

/-- Unpack the result and any errors from the `rpcResponse`
(`rpcResponse.unpack`): a present `Error` becomes a Go error string, else a
present `Result` is returned, else both stay nil (logged at debug level
only). Returns Go's `(result, err)` pair. -/
def rpcResponse.unpack (res : rpcResponse) : Option JObj × Option String :=
  match res.Error with
  | some e => (none, some ("Kodi error (" ++ toString e.Code ++ "): " ++ e.Message))
  | none =>
      match res.Result with
      | some r => (some r, none)
      | none => (none, none)

/-- What happens on the response channel while `Read` waits: either a
response is delivered by the reader loop, or nothing arrives before the
timer fires. -/
inductive Arrival where
  | resp (r : rpcResponse)
  | timeout

/-- Outcome of a `Read` call: Go's `(result, err)` pair, a panic that
terminates the process, or an unbounded block (receive with no timeout and
no sender). -/
inductive ReadOutcome where
  | ok (result : Option JObj)
  | err (msg : String)
  | crash (msg : String)
  | blocked

/-- `Response.Read(timeout)`: guard on `Pending` and on a nil channel;
receive from the response channel (with a `timeout*time.Second` timer when
`timeout > 0`); unpack; then `close` the channel.  `chClosed` is the state
of the handle's channel, `arrival` the concurrency oracle.  Returns the
outcome, the channel's new closed flag, and the handle as left by the call
— the source never mutates `Pending` or `channel`.  If the channel is
already closed, the receive yields a nil `*rpcResponse` immediately and
`unpack` dereferences it: a nil-pointer panic. -/
def Response.Read (rchan : Response) (timeout : Nat) (chClosed : Bool)
    (arrival : Arrival) : ReadOutcome × Bool × Response :=
  if rchan.Pending ≠ true then
    (ReadOutcome.err "No pending responses!", chClosed, rchan)
  else if rchan.channel.isNone then
    (ReadOutcome.err "Expected response channel, but got nil!", chClosed, rchan)
  else if chClosed then
    (ReadOutcome.crash "runtime error: invalid memory address or nil pointer dereference",
     chClosed, rchan)
  else
    match arrival with
    | Arrival.resp r =>
        match r.unpack with
        | (result, none) => (ReadOutcome.ok result, true, rchan)
        | (_, some m) => (ReadOutcome.err m, true, rchan)
    | Arrival.timeout =>
        if timeout > 0 then
          (ReadOutcome.err "Timeout waiting on response channel", true, rchan)
        else
          (ReadOutcome.blocked, chClosed, rchan)

/-- `Read` seen at the `Connection` level: the handle's channel lives in
`Connection.chans`, so its closing by `Read` is recorded there; everything
else of the connection — in particular the `responses` pending table — is
untouched, because `Response.Read`'s receiver is only the handle. -/
def Connection.ReadOn (c : Connection) (rchan : Response) (timeout : Nat)
    (arrival : Arrival) : ReadOutcome × Connection × Response :=
  match rchan.channel with
  | some i =>
      let out := rchan.Read timeout (c.chans.getD i true) arrival
      (out.1, { c with chans := c.chans.set i out.2.1 }, out.2.2)
  | none =>
      let out := rchan.Read timeout true arrival
      (out.1, c, out.2.2)

/-- Outcome of a `Send` call: the returned `Response` handle, or a panic
(sending on the closed `write` channel terminates the process). -/
inductive SendOutcome where
  | ok (res : Response)
  | crash (msg : String)

/-- `Connection.Send(req, want_response)`: stamp `jsonrpc:"2.0"`; when a
response is wanted, allocate the id and channel, register the pending slot
and bump the counter (all under the lock) before enqueueing; then send the
request on the `write` channel.  The source never consults `Closed`; after
`Close` the `write` channel is closed, so the enqueue panics — after the
slot was registered and the counter bumped. -/
def Connection.Send (c : Connection) (req : Request) (want_response : Bool) :
    SendOutcome × Connection :=
  let req := { req with JsonRPC := "2.0" }
  if want_response = true then
    let id := c.requestId
    let ch := c.chans.length
    let c := { c with
      chans := c.chans ++ [false]
      responses := (id, ch) :: c.responses
      requestId := (c.requestId + 1) % 2 ^ 32 }
    let req := { req with Id := some id }
    if c.writeChanClosed then
      (SendOutcome.crash "send on closed channel", c)
    else
      (SendOutcome.ok ⟨some ch, true⟩, { c with write := c.write ++ [req] })
  else
    if c.writeChanClosed then
      (SendOutcome.crash "send on closed channel", c)
    else
      (SendOutcome.ok ⟨none, false⟩, { c with write := c.write ++ [req] })

/-- `Connection.Close`: a second call returns at once (`if c.Closed`);
otherwise set `Closed`, wait out in-flight enqueues, and close the `write`
channel, the `Notifications` channel and the socket. -/
def Connection.Close (c : Connection) : Connection :=
  if c.Closed then c
  else { c with Closed := true, writeChanClosed := true, notifChanClosed := true }

/-! ## Reader loop (`Connection.reader`) -/

/-- Outcome of `c.dec.Decode(res)` at the top of the reader loop: a decoded
message, a transport-level failure (`io.EOF` or a `net.Error`), or any
other decode error. -/
inductive DecodeResult where
  | ok (res : rpcResponse)
  | netOrEof (msg : String)
  | decodeFailure (msg : String)

/-- What the reader loop does with a decode outcome. -/
inductive ReaderErrAction where
  | reconnect
  | skipMessage
  | classifyMessage (res : rpcResponse)
  | exitLoop

/-- Error handling at the top of the reader loop: on `io.EOF` or a
`net.Error`, log and call `c.connect()` (the loop then proceeds with the
zero-valued message); on any other decode error, log and `continue`.  The
source never consults `Closed` here and has no path that exits the loop
(`exitLoop` is in the codomain only to state that fact). -/
def readerOnDecode (Closed : Bool) (d : DecodeResult) : ReaderErrAction :=
  match d with
  | DecodeResult.ok res => ReaderErrAction.classifyMessage res
  | DecodeResult.netOrEof _ => ReaderErrAction.reconnect
  | DecodeResult.decodeFailure _ => ReaderErrAction.skipMessage

/-- How the reader loop disposes of one decoded message. -/
inductive ReaderAction where
  | notify (n : Notification)
  | deliver (ch : Nat)
  | sendOnClosed (ch : Nat)
  | discardUnknown
  | discardUnparseable
deriving DecidableEq

/-- Does a reader action terminate the session?  Only the send on a closed
response channel does: in Go it panics the process. -/
def sessionTerminates : ReaderAction → Bool
  | ReaderAction.sendOnClosed _ => true
  | _ => false

/-- Classification of one decoded message by the reader loop: no id and a
method → notification; an id → look up the pending slot under
`uint32(*res.Id)`, deliver on the slot's channel when found (a panic when
that channel was closed by a completed `Read`), log-and-discard when not
found; neither id nor method → log-and-discard as unparseable. -/
def readerClassify (responses : List (Nat × Nat)) (chans : List Bool)
    (res : rpcResponse) : ReaderAction :=
  match res.Id, res.Method with
  | none, some m =>
      ReaderAction.notify ⟨m, decodeNotificationParams res.Params⟩
  | some q, _ =>
      match List.lookup (uint32OfRat q) responses with
      | some ch =>
          if chans.getD ch false then ReaderAction.sendOnClosed ch
          else ReaderAction.deliver ch
      | none => ReaderAction.discardUnknown
  | none, none => ReaderAction.discardUnparseable

/-! ## Notification delivery (`Connection.reader`, notification branch) -/

/-- `make(chan Notification, 16)` in `Connection.init`. -/
def notificationChanCap : Nat := 16

/-- Delivery of one notification by the reader loop: a plain blocking send
`c.Notifications <- n` on the capacity-16 channel.  `some` is the queue
after the send; `none` means the channel is full and the reader goroutine
blocks on the send until a consumer drains (no grace period, no
eviction — the codomain has no dropped-oldest outcome). -/
def notifyDeliver (queue : List Notification) (n : Notification) :
    Option (List Notification) :=
  if queue.length < notificationChanCap then some (queue ++ [n]) else none

/-! ## Writer loop (`Connection.writer`) -/

/-- Outcome of one `c.enc.Encode(req)`: success, a `net.Error`, or any
other encode error. -/
inductive EncodeResult where
  | ok
  | netError (msg : String)
  | encodeError (msg : String)
deriving DecidableEq

/-- Observable events of one writer-loop iteration. -/
inductive WriterEvent where
  | encodeAttempt (r : EncodeResult)
  | logWarnEvent (msg : String)
  | reconnect
deriving DecidableEq

/-- Number of log-warning events in a writer trace. -/
def logWarnCount (evs : List WriterEvent) : Nat :=
  (evs.filter fun e =>
    match e with
    | WriterEvent.logWarnEvent _ => true
    | _ => false).length

/-- One iteration of the writer loop on a dequeued request, as the trace of
its events plus whether the loop continues to the next item.  On a
`net.Error`: reconnect, then re-encode once, its result ignored.  On any
other encode error: log a warning about the first failure, reconnect, then
re-encode once, its result ignored.  The loop never breaks. -/
def writerStep (first retried : EncodeResult) : List WriterEvent × Bool :=
  match first with
  | EncodeResult.ok => ([WriterEvent.encodeAttempt EncodeResult.ok], true)
  | EncodeResult.netError m =>
      ([WriterEvent.encodeAttempt (EncodeResult.netError m),
        WriterEvent.reconnect,
        WriterEvent.encodeAttempt retried], true)
  | EncodeResult.encodeError m =>
      ([WriterEvent.encodeAttempt (EncodeResult.encodeError m),
        WriterEvent.logWarnEvent "Failed encoding request for Kodi",
        WriterEvent.reconnect,
        WriterEvent.encodeAttempt retried], true)

/-! ## Reconnection (`Connection.connect`) -/

/-- `time.Sleep(time.Second)` between consecutive failed dials. -/
def backoffSeconds : Nat := 1

/-- The dial loop of `connect`: attempt `net.Dial`; while it fails, sleep
one second and retry.  `dial k` is the outcome of the `k`-th attempt,
`fuel` bounds the unrolling for executability; the result is the index of
the first successful attempt (which is also the number of one-second
sleeps taken before it). -/
def connectLoop (dial : Nat → Bool) : Nat → Nat → Option Nat
  | 0, _ => none
  | fuel + 1, k => if dial k then some k else connectLoop dial fuel (k + 1)

/-- `Connection.connect()`: dial until success, with a fixed one-second
sleep between attempts, then install a fresh encoder/decoder and return
`err = nil`.  The connection's configured `timeout` is passed in to state
claims about it, but the source's `connect` never reads it.  `some (k, e)`
means the loop returned after `k` failed attempts with Go error `e`
(always `nil`); `none` means the loop is still retrying after `fuel`
attempts. -/
def Connection.connect (timeout : Nat) (dial : Nat → Bool) (fuel : Nat) :
    Option (Nat × Option String) :=
  (connectLoop dial fuel 0).map fun k => (k, none)

/-! ## Init handshake (`Connection.init`) -/

/-- The request issued by `init`:
`c.Send(Request{Method: "JSONRPC.Version"}, true)`. -/
def initVersionRequest : Request :=
  { Id := none, Method := "JSONRPC.Version", Params := none, JsonRPC := "" }

/-- `KODI_MIN_VERSION = 6`. -/
def KODI_MIN_VERSION : ℚ := 6

/-- Outcome of the version gate at the end of `init`: success, the
too-low-version error, or a panic from a failed single-form type
assertion (`res["version"].(map[string]interface{})` or
`version["major"].(float64)` on a missing/mis-shaped value). -/
inductive InitCheck where
  | ok
  | versionError (msg : String)
  | crash (msg : String)
deriving DecidableEq

/-- The version gate of `init` on the result map returned by the handshake
`Read`: assert `res["version"]` to a map, assert `version["major"]` to a
number, and reject when it is below `KODI_MIN_VERSION`. -/
def checkKodiVersion (result : Option JObj) : InitCheck :=
  match jlookup result "version" with
  | some (JVal.obj v) =>
      match v.lookup "major" with
      | some (JVal.num m) =>
          if m < KODI_MIN_VERSION then
            InitCheck.versionError "Kodi version too low, upgrade to Frodo or later"
          else InitCheck.ok
      | _ => InitCheck.crash "interface conversion"
  | _ => InitCheck.crash "interface conversion"

/-! ## Concrete fixtures used by the theorems below -/

/-- A plain request used as test input. -/
def fooRequest : Request :=
  { Id := none, Method := "Foo", Params := none, JsonRPC := "" }

/-- A successful response to request id 0. -/
def okResponse : rpcResponse :=
  { Id := some 0, JsonRPC := "2.0", Method := none, Params := none
    Result := some [("ok", JVal.bool true)], Error := none }

/-- A pending `Response` handle over channel 0, as returned by the first
`Send(…, true)` on a fresh connection. -/
def handle0 : Response := { channel := some 0, Pending := true }

/-- The connection after one `Send(fooRequest, true)` on a fresh
connection: pending table `[(0, 0)]`, channel 0 open. -/
def connAfterSend : Connection := (freshConnection.Send fooRequest true).2

/-- The connection after `Read` has consumed the response to that request:
channel 0 is now closed. -/
def connAfterRead : Connection :=
  (connAfterSend.ReadOn handle0 1 (Arrival.resp okResponse)).2.1

/-- A late response to request id 0, arriving after `Read` has returned. -/
def lateResponse : rpcResponse :=
  { Id := some 0, JsonRPC := "2.0", Method := none, Params := none
    Result := some [("late", JVal.bool true)], Error := none }

/-- A pending-request table holding id 7 on channel 0. -/
def c7Table : List (Nat × Nat) := [(7, 0)]

/-- A response to request id 7. -/
def c7LateResponse : rpcResponse :=
  { Id := some 7, JsonRPC := "2.0", Method := none, Params := none
    Result := none, Error := none }

/-- A notification value (all fields at their zero values). -/
def emptyNotification : Notification := ⟨"", ⟨⟨none⟩⟩⟩

/-- The handshake result of the spec's end-to-end example:
`{"version": {"major": 6, "minor": 14, "patch": 3}}`. -/
def versionResult6 : Option JObj :=
  some [("version", JVal.obj
    [("major", JVal.num 6), ("minor", JVal.num 14), ("patch", JVal.num 3)])]

/-! ## Theorems -/

/-- C1 (code bug): `Connection.Send` never consults the `Closed` flag.  On
a connection on which `Close` has completed, `Send(req, true)` still
registers the pending slot for id 0 and increments the identifier counter,
and then panics sending on the closed `write` channel — it does not fail
with a closed-connection error (its return type cannot even carry one). -/
theorem send_after_close_not_rejected :
    (Connection.Close freshConnection).Closed = true ∧
    ((Connection.Close freshConnection).Send fooRequest true).1 =
      SendOutcome.crash "send on closed channel" ∧
    ((Connection.Close freshConnection).Send fooRequest true).2.requestId = 1 ∧
    List.lookup 0 ((Connection.Close freshConnection).Send fooRequest true).2.responses =
      some 0 :=
  ⟨rfl, rfl, rfl, rfl⟩

/-- C2 (code bug): the first `Read` on a pending handle returns the
unpacked result and closes the handle's channel, but leaves `Pending`
true; a second `Read` on the same handle therefore passes the `Pending`
guard, receives a nil `*rpcResponse` from the closed channel, and panics
with a nil-pointer dereference inside `unpack` — it does not fail with the
no-pending-responses error.  The same happens after a timed-out first
`Read`, which also closes the channel. -/
theorem second_read_crashes :
    (handle0.Read 1 false (Arrival.resp okResponse)).1 =
      ReadOutcome.ok (some [("ok", JVal.bool true)]) ∧
    (handle0.Read 1 false (Arrival.resp okResponse)).2.1 = true ∧
    ((handle0.Read 1 false (Arrival.resp okResponse)).2.2).Pending = true ∧
    (((handle0.Read 1 false (Arrival.resp okResponse)).2.2).Read 1
        (handle0.Read 1 false (Arrival.resp okResponse)).2.1
        (Arrival.resp okResponse)).1 =
      ReadOutcome.crash "runtime error: invalid memory address or nil pointer dereference" ∧
    (handle0.Read 1 false Arrival.timeout).1 =
      ReadOutcome.err "Timeout waiting on response channel" ∧
    (handle0.Read 1 false Arrival.timeout).2.1 = true :=
  ⟨rfl, rfl, rfl, rfl, rfl, rfl⟩

/-- C3 (code bug): notification delivery is a plain blocking send on the
capacity-16 `Notifications` channel.  When the queue is full the reader
goroutine blocks until a consumer drains — there is no grace period and no
drop-oldest eviction (the delivery function has no such outcome): with 16
or more notifications queued, delivery never completes on its own. -/
theorem notification_full_queue_blocks :
    notificationChanCap = 16 ∧
    notifyDeliver (List.replicate 16 emptyNotification) emptyNotification = none ∧
    (∀ (extra : List Notification) (n : Notification),
      notifyDeliver (List.replicate 16 emptyNotification ++ extra) n = none) := by
  refine ⟨rfl, rfl, ?_⟩
  intro extra n
  simp [notifyDeliver, notificationChanCap]

/-- C4 counterexample: with `Closed = true`, a transport-level read
failure (EOF) makes the reader loop invoke `connect` — it does not exit
the loop. -/
theorem reader_reconnects_after_close :
    readerOnDecode true (DecodeResult.netOrEof "EOF") = ReaderErrAction.reconnect ∧
    readerOnDecode true (DecodeResult.netOrEof "EOF") ≠ ReaderErrAction.exitLoop :=
  ⟨rfl, nofun⟩

/-- C4 amended: the reader loop's error handling never consults the
`Closed` flag: on EOF or a `net.Error` it reconnects in every state,
closed or not (and it has no exit path at all); a non-transport decode
failure only skips the message.  `Close` does set `Closed`. -/
theorem reader_reconnect_ignores_closed :
    (∀ (b : Bool) (msg : String),
      readerOnDecode b (DecodeResult.netOrEof msg) = ReaderErrAction.reconnect) ∧
    (∀ (b : Bool) (msg : String),
      readerOnDecode b (DecodeResult.decodeFailure msg) = ReaderErrAction.skipMessage) ∧
    (Connection.Close freshConnection).Closed = true :=
  ⟨fun _ _ => rfl, fun _ _ => rfl, rfl⟩

/-- C5 counterexample: after `Send(fooRequest, true)` on a fresh
connection returned the pending handle for id 0 and `Read` on that handle
has returned, the pending-request table still holds the entry for id 0 —
the slot was not removed. -/
theorem read_leaves_slot_registered :
    (freshConnection.Send fooRequest true).1 = SendOutcome.ok ⟨some 0, true⟩ ∧
    List.lookup 0 connAfterRead.responses = some 0 :=
  ⟨rfl, rfl⟩

/-- C5 amended: `Read` never touches the pending-request table (its
receiver is only the handle): the table is unchanged by every `Read`.
What `Read` does do is close the handle's channel; a late response to that
identifier is then still matched by the reader loop's lookup — and the
delivery is a send on the closed channel, a panic — rather than being
discarded through the not-found path. -/
theorem read_never_retires_slot :
    (∀ (c : Connection) (rchan : Response) (t : Nat) (a : Arrival),
      ((c.ReadOn rchan t a).2.1).responses = c.responses) ∧
    connAfterRead.chans = [true] ∧
    readerClassify connAfterRead.responses connAfterRead.chans lateResponse =
      ReaderAction.sendOnClosed 0 ∧
    sessionTerminates
      (readerClassify connAfterRead.responses connAfterRead.chans lateResponse) = true := by
  refine ⟨?_, rfl, rfl, rfl⟩
  intro c rchan t a
  cases h : rchan.channel <;> simp [Connection.ReadOn, h]

/-- C6 counterexample: `connect` with a configured timeout of 1 second and
a dial that first succeeds on attempt 5 (after five one-second backoffs,
well past the timeout) still returns success with a nil error — exceeding
the configured timeout never aborts the attempt with a connect error; and
with a dial that never succeeds, `connect` is still retrying after any
number of attempts instead of aborting. -/
theorem connect_ignores_timeout_cx :
    Connection.connect 1 (fun k => k == 5) 10 = some (5, none) ∧
    Connection.connect 1 (fun _ => false) 10 = none ∧
    5 * backoffSeconds > 1 :=
  ⟨rfl, rfl, by norm_num [backoffSeconds]⟩

/-- C6 amended: `connect` retries with a fixed one-second backoff
indefinitely in all cases: its result does not depend on the configured
timeout at all, and under persistent dial failure it never returns.  The
configured timeout instead bounds only the initial version-query `Read` in
`init`, which fails with the timeout error when it expires. -/
theorem connect_retries_indefinitely :
    (∀ (t1 t2 : Nat) (dial : Nat → Bool) (fuel : Nat),
      Connection.connect t1 dial fuel = Connection.connect t2 dial fuel) ∧
    (∀ (t fuel : Nat), Connection.connect t (fun _ => false) fuel = none) ∧
    backoffSeconds = 1 ∧
    (handle0.Read 3 false Arrival.timeout).1 =
      ReadOutcome.err "Timeout waiting on response channel" := by
  have loopNone : ∀ (fuel k : Nat), connectLoop (fun _ => false) fuel k = none := by
    intro fuel
    induction fuel with
    | zero => intro k; rfl
    | succ n ih => intro k; simpa [connectLoop] using ih (k + 1)
  refine ⟨fun _ _ _ _ => rfl, ?_, rfl, rfl⟩
  intro t fuel
  simp [Connection.connect, loopNone]

/-- C7 counterexample: a single decoded message can terminate the session:
a response whose identifier (7) is found in the pending table but whose
slot channel has been closed by a completed `Read` is neither received by
the slot nor discarded — the reader loop's send on the closed channel
panics the process. -/
theorem message_can_terminate_session :
    readerClassify c7Table [true] c7LateResponse = ReaderAction.sendOnClosed 0 ∧
    sessionTerminates (readerClassify c7Table [true] c7LateResponse) = true :=
  ⟨rfl, rfl⟩

/-- C7 amended: the reader loop classifies each decoded message exactly as
claimed — no id and a method is a notification, an id is looked up in the
pending table under the `uint32`-coerced identifier and discarded without
error when absent, neither id nor method is discarded as unparseable —
except that delivery to a found slot only happens when the slot's channel
is still open; when that channel was closed by a completed `Read`, the
send panics and terminates the session. -/
theorem reader_classification :
    (∀ (t : List (Nat × Nat)) (c : List Bool) (m : String) (jr : String)
        (p : Option JObj) (r : Option JObj) (e : Option rpcError),
      readerClassify t c ⟨none, jr, some m, p, r, e⟩ =
        ReaderAction.notify ⟨m, decodeNotificationParams p⟩) ∧
    (∀ (t : List (Nat × Nat)) (c : List Bool) (jr : String)
        (p : Option JObj) (r : Option JObj) (e : Option rpcError),
      readerClassify t c ⟨none, jr, none, p, r, e⟩ = ReaderAction.discardUnparseable) ∧
    (∀ (t : List (Nat × Nat)) (c : List Bool) (q : ℚ) (jr : String)
        (m : Option String) (p : Option JObj) (r : Option JObj) (e : Option rpcError),
      List.lookup (uint32OfRat q) t = none →
      readerClassify t c ⟨some q, jr, m, p, r, e⟩ = ReaderAction.discardUnknown) ∧
    (∀ (t : List (Nat × Nat)) (c : List Bool) (q : ℚ) (jr : String)
        (m : Option String) (p : Option JObj) (r : Option JObj) (e : Option rpcError)
        (i : Nat),
      List.lookup (uint32OfRat q) t = some i → c.getD i false = false →
      readerClassify t c ⟨some q, jr, m, p, r, e⟩ = ReaderAction.deliver i) ∧
    (∀ (t : List (Nat × Nat)) (c : List Bool) (q : ℚ) (jr : String)
        (m : Option String) (p : Option JObj) (r : Option JObj) (e : Option rpcError)
        (i : Nat),
      List.lookup (uint32OfRat q) t = some i → c.getD i false = true →
      readerClassify t c ⟨some q, jr, m, p, r, e⟩ = ReaderAction.sendOnClosed i) := by
  refine ⟨fun _ _ _ _ _ _ _ => rfl, fun _ _ _ _ _ _ => rfl, ?_, ?_, ?_⟩
  · intro t c q jr m p r e h
    simp [readerClassify, h]
  · intro t c q jr m p r e i h hc
    simp only [List.getD, List.get?_eq_getElem?] at hc
    simp [readerClassify, h, hc]
  · intro t c q jr m p r e i h hc
    simp only [List.getD, List.get?_eq_getElem?] at hc
    simp [readerClassify, h, hc]

/-- Witness for C7 amended: a response with id 3 and a pending table
holding id 3 on the open channel 1 is delivered to that slot. -/
theorem reader_classification_witness :
    readerClassify [(3, 1)] [false, false] ⟨some 3, "2.0", none, none, none, none⟩ =
      ReaderAction.deliver 1 :=
  reader_classification.2.2.2.1 [(3, 1)] [false, false] 3 "2.0" none none none none 1
    rfl rfl

/-- C8 counterexample: when the first encode of a dequeued request fails
with a `net.Error` and the retried encode (after reconnecting) fails too,
the writer loop emits no log at all about it — the retried encode's result
is discarded, so the claimed "failure is logged" does not happen. -/
theorem retried_encode_failure_unlogged :
    writerStep (EncodeResult.netError "broken pipe") (EncodeResult.netError "broken pipe") =
      ([WriterEvent.encodeAttempt (EncodeResult.netError "broken pipe"),
        WriterEvent.reconnect,
        WriterEvent.encodeAttempt (EncodeResult.netError "broken pipe")], true) ∧
    logWarnCount
      (writerStep (EncodeResult.netError "broken pipe")
        (EncodeResult.netError "broken pipe")).1 = 0 :=
  ⟨rfl, rfl⟩

/-- C8 amended: on an encode failure the writer loop reconnects
synchronously and retries encoding the same request exactly once, then
proceeds to the next queued item without terminating; a warning is logged
only for a non-transport first failure (describing that first failure),
and the retried encode's outcome is never inspected or logged. -/
theorem writer_retry_characterization :
    (∀ (m : String) (retried : EncodeResult),
      writerStep (EncodeResult.netError m) retried =
        ([WriterEvent.encodeAttempt (EncodeResult.netError m),
          WriterEvent.reconnect,
          WriterEvent.encodeAttempt retried], true)) ∧
    (∀ (m : String) (retried : EncodeResult),
      writerStep (EncodeResult.encodeError m) retried =
        ([WriterEvent.encodeAttempt (EncodeResult.encodeError m),
          WriterEvent.logWarnEvent "Failed encoding request for Kodi",
          WriterEvent.reconnect,
          WriterEvent.encodeAttempt retried], true)) ∧
    (∀ (retried : EncodeResult),
      writerStep EncodeResult.ok retried =
        ([WriterEvent.encodeAttempt EncodeResult.ok], true)) ∧
    (∀ (m : String) (r1 r2 : EncodeResult),
      logWarnCount (writerStep (EncodeResult.netError m) r1).1 =
        logWarnCount (writerStep (EncodeResult.netError m) r2).1) :=
  ⟨fun _ _ => rfl, fun _ _ => rfl, fun _ => rfl, fun _ _ _ => rfl⟩

/-- C9: `init` issues the `JSONRPC.Version` request (enqueued with id 0
and the `2.0` tag on a fresh connection), and the version gate on a
handshake result containing `version.major` fails with the
too-low-version error exactly when `major` is below `KODI_MIN_VERSION`,
which is 6 — so it succeeds iff `major ≥ 6`. -/
theorem init_version_gate (result : Option JObj) (v : JObj) (m : ℚ)
    (hv : jlookup result "version" = some (JVal.obj v))
    (hm : v.lookup "major" = some (JVal.num m)) :
    ((freshConnection.Send initVersionRequest true).2).write =
      [{ Id := some 0, Method := "JSONRPC.Version", Params := none, JsonRPC := "2.0" }] ∧
    checkKodiVersion result =
      (if m < KODI_MIN_VERSION then
        InitCheck.versionError "Kodi version too low, upgrade to Frodo or later"
      else InitCheck.ok) ∧
    KODI_MIN_VERSION = 6 := by
  refine ⟨rfl, ?_, rfl⟩
  simp [checkKodiVersion, hv, hm]

/-- Witness for C9: on the spec's example handshake result with
`major = 6` the version gate succeeds, and the handshake request is
enqueued with id 0 and method `JSONRPC.Version`. -/
theorem init_version_gate_witness :
    checkKodiVersion versionResult6 = InitCheck.ok ∧
    ((freshConnection.Send initVersionRequest true).2).write =
      [{ Id := some 0, Method := "JSONRPC.Version", Params := none, JsonRPC := "2.0" }] := by
  have h := init_version_gate versionResult6
    [("major", JVal.num 6), ("minor", JVal.num 14), ("patch", JVal.num 3)] 6 rfl rfl
  refine ⟨?_, h.1⟩
  rw [h.2.1, if_neg (by norm_num [KODI_MIN_VERSION])]

/-- C10: a delivered response carrying neither a result payload nor an
error object unpacks to a nil result map and a nil error, and `Read` on a
pending handle receiving such a response returns successfully with the nil
result map rather than failing. -/
theorem read_empty_response_ok (id : Option ℚ) (jr : String) (m : Option String)
    (p : Option JObj) (t : Nat) :
    rpcResponse.unpack ⟨id, jr, m, p, none, none⟩ = (none, none) ∧
    (Response.Read ⟨some 0, true⟩ t false
      (Arrival.resp ⟨id, jr, m, p, none, none⟩)).1 = ReadOutcome.ok none :=
  ⟨rfl, rfl⟩
